import Mathlib

/-!
Shallow embedding of `torchtnt/runner/auto_unit.py` (class `AutoTrainUnit`).

The class is a convenience wrapper that runs the standard SGD step.  Its own
code is pure orchestration: it calls, in a fixed order, operations of the
external framework (`copy_data_to_device`, `loss.backward`, `optimizer.step`,
`optimizer.zero_grad`, `lr_scheduler.step`) and user-supplied overrides
(`compute_loss`, `update_metrics`, `log_metrics`).  We embed each method as a
function that returns the list of calls it made (the trace), the possibly
updated unit object, and either the Python return value or the exception that
propagated.  External calls and user overrides are parameters that may raise
(modelled by `Except Nat`, the `Nat` being an opaque exception identity), so
exception propagation and the statements this class executes itself (the
`assert` and the modulo by `log_frequency_steps`) are represented faithfully.
-/

namespace TorchTNT

/-- A `torch.device` reference; opaque to this code, identified by a number.
`torch.device` objects are always truthy in Python. -/
structure Device where
  deviceId : Nat
deriving DecidableEq

/-- An injected `torch.optim.Optimizer` reference, opaque to this code. -/
structure OptimizerRef where
  optId : Nat
deriving DecidableEq

/-- An injected `torch.optim.lr_scheduler._LRScheduler` reference, opaque to
this code.  Scheduler objects are always truthy in Python; Python `None` is
modelled by `Option.none`. -/
structure SchedulerRef where
  schedId : Nat
deriving DecidableEq

/-- The `Literal["step", "epoch"]` type of `step_lr_interval`. -/
inductive Interval where
  | step
  | epoch
deriving DecidableEq

/-- The `progress` object reached through `state.train_state.progress`:
the only field this code reads is `num_steps_completed`. -/
structure Progress where
  num_steps_completed : Nat
deriving DecidableEq

/-- The `state.train_state` object; this code reads `progress` from it. -/
structure TrainState where
  progress : Progress
deriving DecidableEq

/-- The `State` object passed to every method.  `train_state` may be Python
`None` (falsy), which the `assert state.train_state` statements test. -/
structure State where
  train_state : Option TrainState
deriving DecidableEq

/-- An exception escaping a method of this class.  `fromFramework c` is an
exception raised inside the external framework or a user-supplied override
(`c` an opaque identity); `assertFailed` is the `AssertionError` of the
`assert state.train_state` statements of this class; `divByZero` is the
`ZeroDivisionError` of the `% self.log_frequency_steps` operation of this
class. -/
inductive PyErr where
  | fromFramework (code : Nat)
  | assertFailed
  | divByZero
deriving DecidableEq

/-- One call made by a method of this class, recorded in order with the
arguments that matter to the specification. -/
inductive Event (Batch : Type) where
  | copy_data_to_device (data : Batch) (device : Device)
  | compute_loss (data : Batch)
  | backward
  | optimizer_step
  | optimizer_zero_grad (set_to_none : Bool)
  | lr_scheduler_step
  | update_metrics (data : Batch)
  | log_metrics (step : Nat) (interval : Interval)
deriving DecidableEq

/-- The attributes `__init__` stores on `self`. -/
structure AutoTrainUnit where
  optimizer : OptimizerRef
  lr_scheduler : Option SchedulerRef
  step_lr_interval : Interval
  device : Device
  log_frequency_steps : Int
deriving DecidableEq

/-- Python default of the `lr_scheduler` keyword argument (`None`). -/
def default_lr_scheduler : Option SchedulerRef := none

/-- Python default of the `step_lr_interval` keyword argument (`"epoch"`). -/
def default_step_lr_interval : Interval := Interval.epoch

/-- Python default of the `device` keyword argument (`None`). -/
def default_device : Option Device := none

/-- The body of `AutoTrainUnit.__init__`: stores the arguments on `self`;
`self.device = device or get_device_from_env()`, and since a `torch.device`
is always truthy, a supplied device wins and `None` falls back to the
environment device `env_device`. -/
def AutoTrainUnit.init (optimizer : OptimizerRef) (lr_scheduler : Option SchedulerRef)
    (step_lr_interval : Interval) (device : Option Device) (log_frequency_steps : Int)
    (env_device : Device) : AutoTrainUnit :=
  ⟨optimizer, lr_scheduler, step_lr_interval,
    match device with
    | some d => d
    | none => env_device,
    log_frequency_steps⟩

/-- The external framework operations `train_step` and `on_train_epoch_end`
invoke.  Each may raise (return `Except.error`). -/
structure Framework (Batch Tensor : Type) where
  copy_data_to_device : Batch → Device → Except Nat Batch
  backward : Tensor → Except Nat Unit
  optimizer_step : OptimizerRef → Except Nat Unit
  optimizer_zero_grad : OptimizerRef → Bool → Except Nat Unit
  lr_scheduler_step : SchedulerRef → Except Nat Unit

/-- The user-overridable methods of the class: `compute_loss` (abstract) and
the metric hooks `update_metrics` and `log_metrics`.  Each may raise. -/
structure UnitImpl (Batch Tensor Output : Type) where
  compute_loss : State → Batch → Except Nat (Tensor × Output)
  update_metrics : State → Batch → Tensor → Output → Except Nat Unit
  log_metrics : State → Nat → Interval → Except Nat Unit

/-- The default body of `update_metrics` in the class: `pass` — it returns
`None` and has no effect. -/
def default_update_metrics {Batch Tensor Output : Type} :
    State → Batch → Tensor → Output → Except Nat Unit :=
  fun _ _ _ _ => Except.ok ()

/-- The default body of `log_metrics` in the class: `pass` — it returns
`None` and has no effect. -/
def default_log_metrics : State → Nat → Interval → Except Nat Unit :=
  fun _ _ _ => Except.ok ()

/-- A subclass that overrides only the abstract `compute_loss` method and
inherits the default metric hooks. -/
def UnitImpl.ofComputeLoss {Batch Tensor Output : Type}
    (f : State → Batch → Except Nat (Tensor × Output)) : UnitImpl Batch Tensor Output :=
  ⟨f, default_update_metrics, default_log_metrics⟩

/-- Result of running one method: the unit object after the call, the calls
made (in order), and the Python outcome — return value or exception. -/
structure MethodResult (Batch : Type) (R : Type) where
  unit : AutoTrainUnit
  trace : List (Event Batch)
  result : Except PyErr R

/-- Lines 118-127 of `train_step`, from the `update_metrics` call on: call
`self.update_metrics(state, data, loss, outputs)`; `assert state.train_state`
(raises `AssertionError` when `train_state` is `None`); compute
`(step_count + 1) % self.log_frequency_steps` (raises `ZeroDivisionError`
when `log_frequency_steps` is `0`; Python `%` is floored modulo, `Int.fmod`);
when it is `0`, call `self.log_metrics(state, step_count, "step")`; finally
`return loss, outputs`.  `trace` is the calls already made by lines 105-116,
`data` the device-copied batch. -/
def train_step_tail {Batch Tensor Output : Type} (impl : UnitImpl Batch Tensor Output)
    (u : AutoTrainUnit) (state : State) (data : Batch) (loss : Tensor) (outputs : Output)
    (trace : List (Event Batch)) : MethodResult Batch (Tensor × Output) :=
  match impl.update_metrics state data loss outputs with
  | .error e => ⟨u, trace ++ [.update_metrics data], .error (.fromFramework e)⟩
  | .ok _ =>
    match state.train_state with
    | none => ⟨u, trace ++ [.update_metrics data], .error .assertFailed⟩
    | some ts =>
      if u.log_frequency_steps = 0 then
        ⟨u, trace ++ [.update_metrics data], .error .divByZero⟩
      else if ((ts.progress.num_steps_completed : Int) + 1).fmod u.log_frequency_steps = 0 then
        match impl.log_metrics state ts.progress.num_steps_completed Interval.step with
        | .error e =>
          ⟨u, trace ++ [.update_metrics data,
              .log_metrics ts.progress.num_steps_completed Interval.step],
            .error (.fromFramework e)⟩
        | .ok _ =>
          ⟨u, trace ++ [.update_metrics data,
              .log_metrics ts.progress.num_steps_completed Interval.step],
            .ok (loss, outputs)⟩
      else
        ⟨u, trace ++ [.update_metrics data], .ok (loss, outputs)⟩

/-- The body of `AutoTrainUnit.train_step` (lines 104-127):
`data = copy_data_to_device(data, self.device)`;
`loss, outputs = self.compute_loss(state, data)`; `loss.backward()`;
`self.optimizer.step()`; `self.optimizer.zero_grad(set_to_none=True)`;
`if self.lr_scheduler and self.step_lr_interval == "step":
self.lr_scheduler.step()`; then `train_step_tail`.  An exception from any
call propagates at once, leaving the calls already made in the trace. -/
def train_step {Batch Tensor Output : Type} (fw : Framework Batch Tensor)
    (impl : UnitImpl Batch Tensor Output) (u : AutoTrainUnit) (state : State)
    (data : Batch) : MethodResult Batch (Tensor × Output) :=
  match fw.copy_data_to_device data u.device with
  | .error e => ⟨u, [.copy_data_to_device data u.device], .error (.fromFramework e)⟩
  | .ok d =>
    match impl.compute_loss state d with
    | .error e =>
      ⟨u, [.copy_data_to_device data u.device, .compute_loss d], .error (.fromFramework e)⟩
    | .ok (loss, outputs) =>
      match fw.backward loss with
      | .error e =>
        ⟨u, [.copy_data_to_device data u.device, .compute_loss d, .backward],
          .error (.fromFramework e)⟩
      | .ok _ =>
        match fw.optimizer_step u.optimizer with
        | .error e =>
          ⟨u, [.copy_data_to_device data u.device, .compute_loss d, .backward,
              .optimizer_step], .error (.fromFramework e)⟩
        | .ok _ =>
          match fw.optimizer_zero_grad u.optimizer true with
          | .error e =>
            ⟨u, [.copy_data_to_device data u.device, .compute_loss d, .backward,
                .optimizer_step, .optimizer_zero_grad true], .error (.fromFramework e)⟩
          | .ok _ =>
            match u.lr_scheduler with
            | some sch =>
              if u.step_lr_interval = Interval.step then
                match fw.lr_scheduler_step sch with
                | .error e =>
                  ⟨u, [.copy_data_to_device data u.device, .compute_loss d, .backward,
                      .optimizer_step, .optimizer_zero_grad true, .lr_scheduler_step],
                    .error (.fromFramework e)⟩
                | .ok _ =>
                  train_step_tail impl u state d loss outputs
                    [.copy_data_to_device data u.device, .compute_loss d, .backward,
                      .optimizer_step, .optimizer_zero_grad true, .lr_scheduler_step]
              else
                train_step_tail impl u state d loss outputs
                  [.copy_data_to_device data u.device, .compute_loss d, .backward,
                    .optimizer_step, .optimizer_zero_grad true]
            | none =>
              train_step_tail impl u state d loss outputs
                [.copy_data_to_device data u.device, .compute_loss d, .backward,
                  .optimizer_step, .optimizer_zero_grad true]

/-- Lines 135-138 of `on_train_epoch_end`: `assert state.train_state`, then
`self.log_metrics(state, step_count, "epoch")` unconditionally.  `trace` is
the calls already made by lines 132-133. -/
def on_train_epoch_end_tail {Batch Tensor Output : Type}
    (impl : UnitImpl Batch Tensor Output) (u : AutoTrainUnit) (state : State)
    (trace : List (Event Batch)) : MethodResult Batch Unit :=
  match state.train_state with
  | none => ⟨u, trace, .error .assertFailed⟩
  | some ts =>
    match impl.log_metrics state ts.progress.num_steps_completed Interval.epoch with
    | .error e =>
      ⟨u, trace ++ [.log_metrics ts.progress.num_steps_completed Interval.epoch],
        .error (.fromFramework e)⟩
    | .ok _ =>
      ⟨u, trace ++ [.log_metrics ts.progress.num_steps_completed Interval.epoch], .ok ()⟩

/-- The body of `AutoTrainUnit.on_train_epoch_end` (lines 129-138):
`if self.lr_scheduler and self.step_lr_interval == "epoch":
self.lr_scheduler.step()`; then `assert state.train_state` and the
unconditional `log_metrics` call. -/
def on_train_epoch_end {Batch Tensor Output : Type} (fw : Framework Batch Tensor)
    (impl : UnitImpl Batch Tensor Output) (u : AutoTrainUnit) (state : State) :
    MethodResult Batch Unit :=
  match u.lr_scheduler with
  | some sch =>
    if u.step_lr_interval = Interval.epoch then
      match fw.lr_scheduler_step sch with
      | .error e => ⟨u, [.lr_scheduler_step], .error (.fromFramework e)⟩
      | .ok _ => on_train_epoch_end_tail impl u state [.lr_scheduler_step]
    else
      on_train_epoch_end_tail impl u state []
  | none => on_train_epoch_end_tail impl u state []

/-- A framework instance whose calls all succeed; copying to a device adds
100, so the copied batch is distinguishable from the original. -/
def okFramework : Framework Nat Nat :=
  ⟨fun b _ => Except.ok (b + 100), fun _ => Except.ok (), fun _ => Except.ok (),
    fun _ _ => Except.ok (), fun _ => Except.ok ()⟩

/-- A unit implementation whose overrides all succeed. -/
def okImpl : UnitImpl Nat Nat Nat :=
  ⟨fun _ b => Except.ok (b, b + 1), fun _ _ _ _ => Except.ok (), fun _ _ _ => Except.ok ()⟩

/-- A sample configured unit: scheduler present, per-step scheduling,
`log_frequency_steps = 2`. -/
def sampleUnit : AutoTrainUnit := ⟨⟨0⟩, some ⟨1⟩, Interval.step, ⟨2⟩, 2⟩

/-- A state with `train_state` set and 3 steps completed. -/
def sampleState : State := ⟨some ⟨⟨3⟩⟩⟩

/-- A state whose `train_state` is Python `None`. -/
def noTrainState : State := ⟨none⟩

/-- An implementation whose `compute_loss` always raises exception 7 and whose
metric hooks are the inherited defaults. -/
def failLossImpl : UnitImpl Nat Nat Nat :=
  ⟨fun _ _ => Except.error 7, default_update_metrics, default_log_metrics⟩

/-- A sample unit whose `log_frequency_steps` is `0` (no scheduler). -/
def zeroFreqUnit : AutoTrainUnit := ⟨⟨0⟩, none, Interval.epoch, ⟨2⟩, 0⟩

theorem train_step_tail_unit_eq {Batch Tensor Output : Type}
    (impl : UnitImpl Batch Tensor Output) (u : AutoTrainUnit) (state : State)
    (d : Batch) (loss : Tensor) (outputs : Output) (t : List (Event Batch)) :
    (train_step_tail impl u state d loss outputs t).unit = u := by
  unfold train_step_tail
  repeat' split
  all_goals rfl

theorem on_train_epoch_end_tail_unit_eq {Batch Tensor Output : Type}
    (impl : UnitImpl Batch Tensor Output) (u : AutoTrainUnit) (state : State)
    (t : List (Event Batch)) :
    (on_train_epoch_end_tail impl u state t).unit = u := by
  unfold on_train_epoch_end_tail
  repeat' split
  all_goals rfl

theorem train_step_unit_eq {Batch Tensor Output : Type} (fw : Framework Batch Tensor)
    (impl : UnitImpl Batch Tensor Output) (u : AutoTrainUnit) (state : State)
    (data : Batch) :
    (train_step fw impl u state data).unit = u := by
  unfold train_step
  repeat' split
  all_goals first
    | rfl
    | exact train_step_tail_unit_eq ..

theorem on_train_epoch_end_unit_eq {Batch Tensor Output : Type}
    (fw : Framework Batch Tensor) (impl : UnitImpl Batch Tensor Output)
    (u : AutoTrainUnit) (state : State) :
    (on_train_epoch_end fw impl u state).unit = u := by
  unfold on_train_epoch_end
  repeat' split
  all_goals first
    | rfl
    | exact on_train_epoch_end_tail_unit_eq ..

theorem train_step_tail_trace_split {Batch Tensor Output : Type}
    (impl : UnitImpl Batch Tensor Output) (u : AutoTrainUnit) (state : State)
    (d : Batch) (loss : Tensor) (outputs : Output) (t : List (Event Batch)) :
    ∃ s, (train_step_tail impl u state d loss outputs t).trace = t ++ s ∧
      (∀ ev ∈ s, ev = Event.update_metrics d ∨
        ∃ n, ev = Event.log_metrics n Interval.step) ∧
      Event.update_metrics d ∈ s := by
  unfold train_step_tail
  repeat' split
  all_goals refine ⟨_, rfl, ?_, by simp⟩
  all_goals intro ev hev
  all_goals simp only [List.mem_cons, List.mem_singleton, List.not_mem_nil] at hev
  all_goals rcases hev with h | h
  all_goals try rcases h with h | h
  all_goals first
    | simp [h]
    | simp

theorem on_train_epoch_end_tail_trace_split {Batch Tensor Output : Type}
    (impl : UnitImpl Batch Tensor Output) (u : AutoTrainUnit) (state : State)
    (t : List (Event Batch)) :
    ∃ s, (on_train_epoch_end_tail impl u state t).trace = t ++ s ∧
      ∀ ev ∈ s, ∃ n, ev = Event.log_metrics n Interval.epoch := by
  unfold on_train_epoch_end_tail
  repeat' split
  · exact ⟨[], by simp, by simp⟩
  all_goals refine ⟨_, rfl, ?_⟩
  all_goals intro ev hev
  all_goals simp only [List.mem_singleton] at hev
  all_goals simp [hev]

theorem train_step_reaches_tail {Batch Tensor Output : Type}
    (fw : Framework Batch Tensor) (impl : UnitImpl Batch Tensor Output)
    (u : AutoTrainUnit) (state : State) (data : Batch) (d : Batch) (loss : Tensor)
    (outputs : Output)
    (hcopy : fw.copy_data_to_device data u.device = Except.ok d)
    (hloss : impl.compute_loss state d = Except.ok (loss, outputs))
    (hback : fw.backward loss = Except.ok ())
    (hopt : fw.optimizer_step u.optimizer = Except.ok ())
    (hzero : fw.optimizer_zero_grad u.optimizer true = Except.ok ())
    (hsched : ∀ sch, u.lr_scheduler = some sch →
      fw.lr_scheduler_step sch = Except.ok ()) :
    train_step fw impl u state data =
      train_step_tail impl u state d loss outputs
        ([Event.copy_data_to_device data u.device, Event.compute_loss d, Event.backward,
          Event.optimizer_step, Event.optimizer_zero_grad true] ++
         (if u.lr_scheduler.isSome ∧ u.step_lr_interval = Interval.step
          then [Event.lr_scheduler_step] else [])) := by
  unfold train_step
  simp only [hcopy, hloss, hback, hopt, hzero]
  rcases hs : u.lr_scheduler with _ | sch
  · simp [hs]
  · by_cases hi : u.step_lr_interval = Interval.step
    · simp [hs, hi, hsched sch hs]
    · simp [hs, hi]

theorem train_step_tail_ok_inv {Batch Tensor Output : Type}
    {impl : UnitImpl Batch Tensor Output} {u : AutoTrainUnit} {state : State}
    {d : Batch} {loss : Tensor} {outputs : Output} {t : List (Event Batch)}
    {p : Tensor × Output}
    (h : (train_step_tail impl u state d loss outputs t).result = Except.ok p) :
    p = (loss, outputs) ∧ state.train_state.isSome = true ∧
      u.log_frequency_steps ≠ 0 := by
  unfold train_step_tail at h
  repeat' split at h
  all_goals simp_all

theorem train_step_tail_err_inv {Batch Tensor Output : Type}
    {impl : UnitImpl Batch Tensor Output} {u : AutoTrainUnit} {state : State}
    {d : Batch} {loss : Tensor} {outputs : Output} {t : List (Event Batch)}
    {err : PyErr}
    (h : (train_step_tail impl u state d loss outputs t).result = Except.error err) :
    (∃ c, err = PyErr.fromFramework c) ∨
      (err = PyErr.assertFailed ∧ state.train_state = none) ∨
      (err = PyErr.divByZero ∧ u.log_frequency_steps = 0) := by
  unfold train_step_tail at h
  repeat' split at h
  all_goals try simp_all
  all_goals first
    | exact Or.inl ⟨_, h.symm⟩
    | exact ⟨_, h.symm⟩

theorem on_train_epoch_end_tail_err_inv {Batch Tensor Output : Type}
    {impl : UnitImpl Batch Tensor Output} {u : AutoTrainUnit} {state : State}
    {t : List (Event Batch)} {err : PyErr}
    (h : (on_train_epoch_end_tail impl u state t).result = Except.error err) :
    (∃ c, err = PyErr.fromFramework c) ∨
      (err = PyErr.assertFailed ∧ state.train_state = none) := by
  unfold on_train_epoch_end_tail at h
  repeat' split at h
  all_goals try simp_all
  all_goals first
    | exact Or.inl ⟨_, h.symm⟩
    | exact ⟨_, h.symm⟩

theorem train_step_ok_inv {Batch Tensor Output : Type}
    {fw : Framework Batch Tensor} {impl : UnitImpl Batch Tensor Output}
    {u : AutoTrainUnit} {state : State} {data : Batch} {p : Tensor × Output}
    (h : (train_step fw impl u state data).result = Except.ok p) :
    ∃ d, fw.copy_data_to_device data u.device = Except.ok d ∧
      impl.compute_loss state d = Except.ok p ∧
      state.train_state.isSome = true ∧ u.log_frequency_steps ≠ 0 := by
  rcases hc : fw.copy_data_to_device data u.device with e | d
  · simp [train_step, hc] at h
  rcases hl : impl.compute_loss state d with e | lo
  · simp [train_step, hc, hl] at h
  rcases lo with ⟨loss, outputs⟩
  rcases hb : fw.backward loss with e | v
  · simp [train_step, hc, hl, hb] at h
  rcases ho : fw.optimizer_step u.optimizer with e | v
  · simp [train_step, hc, hl, hb, ho] at h
  rcases hz : fw.optimizer_zero_grad u.optimizer true with e | v
  · simp [train_step, hc, hl, hb, ho, hz] at h
  simp only [train_step, hc, hl, hb, ho, hz] at h
  rcases hs : u.lr_scheduler with _ | sch
  · rw [hs] at h
    try dsimp only at h
    obtain ⟨hp, hsome, hlfs⟩ := train_step_tail_ok_inv h
    exact ⟨d, rfl, by rw [hp]; exact hl, hsome, hlfs⟩
  · rw [hs] at h
    try dsimp only at h
    by_cases hi : u.step_lr_interval = Interval.step
    · rw [if_pos hi] at h
      rcases hlr : fw.lr_scheduler_step sch with e | v
      · simp [hlr] at h
      rw [hlr] at h
      try dsimp only at h
      obtain ⟨hp, hsome, hlfs⟩ := train_step_tail_ok_inv h
      exact ⟨d, rfl, by rw [hp]; exact hl, hsome, hlfs⟩
    · rw [if_neg hi] at h
      obtain ⟨hp, hsome, hlfs⟩ := train_step_tail_ok_inv h
      exact ⟨d, rfl, by rw [hp]; exact hl, hsome, hlfs⟩

theorem train_step_err_inv {Batch Tensor Output : Type}
    {fw : Framework Batch Tensor} {impl : UnitImpl Batch Tensor Output}
    {u : AutoTrainUnit} {state : State} {data : Batch} {err : PyErr}
    (h : (train_step fw impl u state data).result = Except.error err) :
    (∃ c, err = PyErr.fromFramework c) ∨
      (err = PyErr.assertFailed ∧ state.train_state = none) ∨
      (err = PyErr.divByZero ∧ u.log_frequency_steps = 0) := by
  rcases hc : fw.copy_data_to_device data u.device with e | d
  · simp [train_step, hc] at h
    exact Or.inl ⟨e, h.symm⟩
  rcases hl : impl.compute_loss state d with e | lo
  · simp [train_step, hc, hl] at h
    exact Or.inl ⟨e, h.symm⟩
  rcases lo with ⟨loss, outputs⟩
  rcases hb : fw.backward loss with e | v
  · simp [train_step, hc, hl, hb] at h
    exact Or.inl ⟨e, h.symm⟩
  rcases ho : fw.optimizer_step u.optimizer with e | v
  · simp [train_step, hc, hl, hb, ho] at h
    exact Or.inl ⟨e, h.symm⟩
  rcases hz : fw.optimizer_zero_grad u.optimizer true with e | v
  · simp [train_step, hc, hl, hb, ho, hz] at h
    exact Or.inl ⟨e, h.symm⟩
  simp only [train_step, hc, hl, hb, ho, hz] at h
  rcases hs : u.lr_scheduler with _ | sch
  · rw [hs] at h
    try dsimp only at h
    exact train_step_tail_err_inv h
  · rw [hs] at h
    try dsimp only at h
    by_cases hi : u.step_lr_interval = Interval.step
    · rw [if_pos hi] at h
      rcases hlr : fw.lr_scheduler_step sch with e | v
      · simp [hlr] at h
        exact Or.inl ⟨e, h.symm⟩
      rw [hlr] at h
      try dsimp only at h
      exact train_step_tail_err_inv h
    · rw [if_neg hi] at h
      exact train_step_tail_err_inv h

theorem on_train_epoch_end_err_inv {Batch Tensor Output : Type}
    {fw : Framework Batch Tensor} {impl : UnitImpl Batch Tensor Output}
    {u : AutoTrainUnit} {state : State} {err : PyErr}
    (h : (on_train_epoch_end fw impl u state).result = Except.error err) :
    (∃ c, err = PyErr.fromFramework c) ∨
      (err = PyErr.assertFailed ∧ state.train_state = none) := by
  unfold on_train_epoch_end at h
  rcases hs : u.lr_scheduler with _ | sch
  · rw [hs] at h
    try dsimp only at h
    exact on_train_epoch_end_tail_err_inv h
  · rw [hs] at h
    try dsimp only at h
    by_cases hi : u.step_lr_interval = Interval.epoch
    · rw [if_pos hi] at h
      rcases hlr : fw.lr_scheduler_step sch with e | v
      · simp [hlr] at h
        exact Or.inl ⟨e, h.symm⟩
      rw [hlr] at h
      try dsimp only at h
      exact on_train_epoch_end_tail_err_inv h
    · rw [if_neg hi] at h
      exact on_train_epoch_end_tail_err_inv h

/-- C10: neither `train_step` nor `on_train_epoch_end` reassigns the unit's
own configuration attributes: after the call, `optimizer`, `lr_scheduler`,
`step_lr_interval`, `device` and `log_frequency_steps` hold the same values
as before it, for every framework, implementation, unit, state and batch. -/
theorem C10_config_attributes_unchanged {Batch Tensor Output : Type}
    (fw : Framework Batch Tensor) (impl : UnitImpl Batch Tensor Output)
    (u : AutoTrainUnit) (state : State) (data : Batch) :
    ((train_step fw impl u state data).unit.optimizer = u.optimizer ∧
      (train_step fw impl u state data).unit.lr_scheduler = u.lr_scheduler ∧
      (train_step fw impl u state data).unit.step_lr_interval = u.step_lr_interval ∧
      (train_step fw impl u state data).unit.device = u.device ∧
      (train_step fw impl u state data).unit.log_frequency_steps =
        u.log_frequency_steps) ∧
    ((on_train_epoch_end fw impl u state).unit.optimizer = u.optimizer ∧
      (on_train_epoch_end fw impl u state).unit.lr_scheduler = u.lr_scheduler ∧
      (on_train_epoch_end fw impl u state).unit.step_lr_interval =
        u.step_lr_interval ∧
      (on_train_epoch_end fw impl u state).unit.device = u.device ∧
      (on_train_epoch_end fw impl u state).unit.log_frequency_steps =
        u.log_frequency_steps) := by
  simp [train_step_unit_eq, on_train_epoch_end_unit_eq]

/-- C1: whenever the framework calls of the SGD step succeed, `train_step`
makes them in exactly this order: copy the batch to the unit's device,
`compute_loss` on the copied batch, `loss.backward()`, `optimizer.step()`,
then `optimizer.zero_grad(set_to_none=True)` — they are the first five calls
of the step. -/
theorem C1_train_step_sgd_order {Batch Tensor Output : Type}
    (fw : Framework Batch Tensor) (impl : UnitImpl Batch Tensor Output)
    (u : AutoTrainUnit) (state : State) (data : Batch) (d : Batch)
    (loss : Tensor) (outputs : Output)
    (hcopy : fw.copy_data_to_device data u.device = Except.ok d)
    (hloss : impl.compute_loss state d = Except.ok (loss, outputs))
    (hback : fw.backward loss = Except.ok ())
    (hopt : fw.optimizer_step u.optimizer = Except.ok ())
    (hzero : fw.optimizer_zero_grad u.optimizer true = Except.ok ()) :
    (train_step fw impl u state data).trace.take 5 =
      [Event.copy_data_to_device data u.device, Event.compute_loss d, Event.backward,
        Event.optimizer_step, Event.optimizer_zero_grad true] := by
  unfold train_step
  simp only [hcopy, hloss, hback, hopt, hzero]
  rcases hs : u.lr_scheduler with _ | sch
  · try rw [hs]
    try dsimp only
    obtain ⟨s, hsplit, _⟩ := train_step_tail_trace_split impl u state d loss outputs
      [Event.copy_data_to_device data u.device, Event.compute_loss d, Event.backward,
        Event.optimizer_step, Event.optimizer_zero_grad true]
    rw [hsplit]
    simp
  · try rw [hs]
    try dsimp only
    by_cases hi : u.step_lr_interval = Interval.step
    · rw [if_pos hi]
      rcases hlr : fw.lr_scheduler_step sch with e | v
      · try rw [hlr]
        try dsimp only
        simp
      · try rw [hlr]
        try dsimp only
        obtain ⟨s, hsplit, _⟩ := train_step_tail_trace_split impl u state d loss outputs
          [Event.copy_data_to_device data u.device, Event.compute_loss d, Event.backward,
            Event.optimizer_step, Event.optimizer_zero_grad true, Event.lr_scheduler_step]
        rw [hsplit]
        simp
    · rw [if_neg hi]
      obtain ⟨s, hsplit, _⟩ := train_step_tail_trace_split impl u state d loss outputs
        [Event.copy_data_to_device data u.device, Event.compute_loss d, Event.backward,
          Event.optimizer_step, Event.optimizer_zero_grad true]
      rw [hsplit]
      simp

/-- C1 witness: a concrete run through the successful path. -/
theorem C1_train_step_sgd_order_witness :
    (train_step okFramework okImpl sampleUnit sampleState 5).trace.take 5 =
      [Event.copy_data_to_device 5 ⟨2⟩, Event.compute_loss 105, Event.backward,
        Event.optimizer_step, Event.optimizer_zero_grad true] :=
  C1_train_step_sgd_order okFramework okImpl sampleUnit sampleState 5 105 105 106
    rfl rfl rfl rfl rfl

/-- C4: if `compute_loss` raises during `train_step`, the same exception is
the outcome of `train_step`, and none of `loss.backward`, `optimizer.step`,
`optimizer.zero_grad`, `lr_scheduler.step`, `update_metrics` or `log_metrics`
is invoked in that call. -/
theorem C4_compute_loss_exception_atomic {Batch Tensor Output : Type}
    (fw : Framework Batch Tensor) (impl : UnitImpl Batch Tensor Output)
    (u : AutoTrainUnit) (state : State) (data : Batch) (d : Batch) (e : Nat)
    (hcopy : fw.copy_data_to_device data u.device = Except.ok d)
    (hloss : impl.compute_loss state d = Except.error e) :
    (train_step fw impl u state data).result = Except.error (PyErr.fromFramework e) ∧
    (train_step fw impl u state data).trace =
      [Event.copy_data_to_device data u.device, Event.compute_loss d] ∧
    Event.backward ∉ (train_step fw impl u state data).trace ∧
    Event.optimizer_step ∉ (train_step fw impl u state data).trace ∧
    (∀ b : Bool, Event.optimizer_zero_grad b ∉ (train_step fw impl u state data).trace) ∧
    Event.lr_scheduler_step ∉ (train_step fw impl u state data).trace ∧
    (∀ b : Batch, Event.update_metrics b ∉ (train_step fw impl u state data).trace) ∧
    (∀ (n : Nat) (i : Interval),
      Event.log_metrics n i ∉ (train_step fw impl u state data).trace) := by
  have htr : train_step fw impl u state data =
      ⟨u, [Event.copy_data_to_device data u.device, Event.compute_loss d],
        Except.error (PyErr.fromFramework e)⟩ := by
    unfold train_step
    rw [hcopy]
    try dsimp only
    rw [hloss]
  rw [htr]
  refine ⟨rfl, rfl, ?_, ?_, ?_, ?_, ?_, ?_⟩ <;> simp

/-- C4 witness: a concrete run whose `compute_loss` raises exception 7. -/
theorem C4_compute_loss_exception_atomic_witness :
    (train_step okFramework failLossImpl sampleUnit sampleState 5).result =
      Except.error (PyErr.fromFramework 7) ∧
    (train_step okFramework failLossImpl sampleUnit sampleState 5).trace =
      [Event.copy_data_to_device 5 ⟨2⟩, Event.compute_loss 105] :=
  ⟨(C4_compute_loss_exception_atomic okFramework failLossImpl sampleUnit sampleState
      5 105 7 rfl rfl).1,
   (C4_compute_loss_exception_atomic okFramework failLossImpl sampleUnit sampleState
      5 105 7 rfl rfl).2.1⟩

theorem train_step_tail_mem_iff {Batch Tensor Output : Type}
    (impl : UnitImpl Batch Tensor Output) (u : AutoTrainUnit) (state : State)
    (d : Batch) (loss : Tensor) (outputs : Output) (t : List (Event Batch))
    (ev : Event Batch)
    (hupd : ∀ b, ev ≠ Event.update_metrics b)
    (hlog : ∀ n i, ev ≠ Event.log_metrics n i) :
    (ev ∈ (train_step_tail impl u state d loss outputs t).trace ↔ ev ∈ t) := by
  obtain ⟨s, hsplit, hall, _⟩ := train_step_tail_trace_split impl u state d loss outputs t
  rw [hsplit, List.mem_append]
  constructor
  · rintro (h | h)
    · exact h
    · rcases hall _ h with h2 | ⟨n, h2⟩
      · exact absurd h2 (hupd _)
      · exact absurd h2 (hlog _ _)
  · exact Or.inl

theorem on_train_epoch_end_tail_mem_iff {Batch Tensor Output : Type}
    (impl : UnitImpl Batch Tensor Output) (u : AutoTrainUnit) (state : State)
    (t : List (Event Batch)) (ev : Event Batch)
    (hlog : ∀ n i, ev ≠ Event.log_metrics n i) :
    (ev ∈ (on_train_epoch_end_tail impl u state t).trace ↔ ev ∈ t) := by
  obtain ⟨s, hsplit, hall⟩ := on_train_epoch_end_tail_trace_split impl u state t
  rw [hsplit, List.mem_append]
  constructor
  · rintro (h | h)
    · exact h
    · obtain ⟨n, h2⟩ := hall _ h
      exact absurd h2 (hlog _ _)
  · exact Or.inl

/-- C2: the scheduler is stepped according to the interval flag.  During
`train_step` (whose preceding framework calls succeed) `lr_scheduler.step()`
is called iff a scheduler was supplied and `step_lr_interval` is `"step"`;
during `on_train_epoch_end` it is called iff a scheduler was supplied and
`step_lr_interval` is `"epoch"`; and a unit constructed with the default
`step_lr_interval` argument has it equal to `"epoch"`. -/
theorem C2_lr_scheduler_interval {Batch Tensor Output : Type}
    (fw : Framework Batch Tensor) (impl : UnitImpl Batch Tensor Output)
    (u : AutoTrainUnit) (state : State) (data : Batch) (d : Batch)
    (loss : Tensor) (outputs : Output)
    (hcopy : fw.copy_data_to_device data u.device = Except.ok d)
    (hloss : impl.compute_loss state d = Except.ok (loss, outputs))
    (hback : fw.backward loss = Except.ok ())
    (hopt : fw.optimizer_step u.optimizer = Except.ok ())
    (hzero : fw.optimizer_zero_grad u.optimizer true = Except.ok ()) :
    (Event.lr_scheduler_step ∈ (train_step fw impl u state data).trace ↔
      u.lr_scheduler.isSome = true ∧ u.step_lr_interval = Interval.step) ∧
    (Event.lr_scheduler_step ∈ (on_train_epoch_end fw impl u state).trace ↔
      u.lr_scheduler.isSome = true ∧ u.step_lr_interval = Interval.epoch) ∧
    (∀ (o : OptimizerRef) (ls : Option SchedulerRef) (dev : Option Device)
      (lfs : Int) (env : Device),
      (AutoTrainUnit.init o ls default_step_lr_interval dev lfs env).step_lr_interval =
        Interval.epoch) := by
  refine ⟨?_, ?_, fun o ls dev lfs env => rfl⟩
  · unfold train_step
    simp only [hcopy, hloss, hback, hopt, hzero]
    rcases hs : u.lr_scheduler with _ | sch
    · try rw [hs]
      try dsimp only
      rw [train_step_tail_mem_iff impl u state d loss outputs _ Event.lr_scheduler_step
        (by intro b h; cases h) (by intro n i h; cases h)]
      simp [hs]
    · try rw [hs]
      try dsimp only
      by_cases hi : u.step_lr_interval = Interval.step
      · rw [if_pos hi]
        rcases hlr : fw.lr_scheduler_step sch with e | v
        · try rw [hlr]
          try dsimp only
          simp [hs, hi]
        · try rw [hlr]
          try dsimp only
          rw [train_step_tail_mem_iff impl u state d loss outputs _ Event.lr_scheduler_step
            (by intro b h; cases h) (by intro n i h; cases h)]
          simp [hs, hi]
      · rw [if_neg hi]
        rw [train_step_tail_mem_iff impl u state d loss outputs _ Event.lr_scheduler_step
          (by intro b h; cases h) (by intro n i h; cases h)]
        simp [hs, hi]
  · unfold on_train_epoch_end
    rcases hs : u.lr_scheduler with _ | sch
    · try rw [hs]
      try dsimp only
      rw [on_train_epoch_end_tail_mem_iff impl u state _ Event.lr_scheduler_step
        (by intro n i h; cases h)]
      simp [hs]
    · try rw [hs]
      try dsimp only
      by_cases hi : u.step_lr_interval = Interval.epoch
      · rw [if_pos hi]
        rcases hlr : fw.lr_scheduler_step sch with e | v
        · try rw [hlr]
          try dsimp only
          simp [hs, hi]
        · try rw [hlr]
          try dsimp only
          rw [on_train_epoch_end_tail_mem_iff impl u state _ Event.lr_scheduler_step
            (by intro n i h; cases h)]
          simp [hs, hi]
      · rw [if_neg hi]
        rw [on_train_epoch_end_tail_mem_iff impl u state _ Event.lr_scheduler_step
          (by intro n i h; cases h)]
        simp [hs, hi]

/-- C2 witness: with the sample unit (scheduler supplied, per-step interval)
the scheduler is stepped during `train_step` and not during
`on_train_epoch_end`. -/
theorem C2_lr_scheduler_interval_witness :
    (Event.lr_scheduler_step ∈
        (train_step okFramework okImpl sampleUnit sampleState 5).trace ↔
      sampleUnit.lr_scheduler.isSome = true ∧
        sampleUnit.step_lr_interval = Interval.step) ∧
    (Event.lr_scheduler_step ∈
        (on_train_epoch_end okFramework okImpl sampleUnit sampleState).trace ↔
      sampleUnit.lr_scheduler.isSome = true ∧
        sampleUnit.step_lr_interval = Interval.epoch) :=
  ⟨(C2_lr_scheduler_interval okFramework okImpl sampleUnit sampleState 5 105 105 106
      rfl rfl rfl rfl rfl).1,
   (C2_lr_scheduler_interval okFramework okImpl sampleUnit sampleState 5 105 105 106
      rfl rfl rfl rfl rfl).2.1⟩

/-- C3: the logging frequency governs step-interval logging only.  In a
`train_step` that reaches the logging check, `log_metrics(state, step_count,
"step")` is called iff `step_count + 1` is divisible by
`log_frequency_steps`; `on_train_epoch_end` calls `log_metrics(state,
step_count, "epoch")` on every call, for every value of
`log_frequency_steps`, zero included. -/
theorem C3_log_frequency_steps :
    (∀ (Batch Tensor Output : Type) (fw : Framework Batch Tensor)
      (impl : UnitImpl Batch Tensor Output) (u : AutoTrainUnit) (state : State)
      (data d : Batch) (loss : Tensor) (outputs : Output) (ts : TrainState),
      fw.copy_data_to_device data u.device = Except.ok d →
      impl.compute_loss state d = Except.ok (loss, outputs) →
      fw.backward loss = Except.ok () →
      fw.optimizer_step u.optimizer = Except.ok () →
      fw.optimizer_zero_grad u.optimizer true = Except.ok () →
      (∀ sch, u.lr_scheduler = some sch →
        fw.lr_scheduler_step sch = Except.ok ()) →
      impl.update_metrics state d loss outputs = Except.ok () →
      state.train_state = some ts →
      u.log_frequency_steps ≠ 0 →
      (Event.log_metrics ts.progress.num_steps_completed Interval.step ∈
          (train_step fw impl u state data).trace ↔
        ((ts.progress.num_steps_completed : Int) + 1).fmod
          u.log_frequency_steps = 0)) ∧
    (∀ (Batch Tensor Output : Type) (fw : Framework Batch Tensor)
      (impl : UnitImpl Batch Tensor Output) (u : AutoTrainUnit) (state : State)
      (ts : TrainState),
      (∀ sch, u.lr_scheduler = some sch →
        fw.lr_scheduler_step sch = Except.ok ()) →
      state.train_state = some ts →
      Event.log_metrics ts.progress.num_steps_completed Interval.epoch ∈
        (on_train_epoch_end fw impl u state).trace) := by
  constructor
  · intro Batch Tensor Output fw impl u state data d loss outputs ts hcopy hloss
      hback hopt hzero hsched hupd hts hlfs
    rw [train_step_reaches_tail fw impl u state data d loss outputs hcopy hloss hback
      hopt hzero hsched]
    unfold train_step_tail
    simp only [hupd, hts]
    rw [if_neg hlfs]
    by_cases hfm : ((ts.progress.num_steps_completed : Int) + 1).fmod
        u.log_frequency_steps = 0
    · rw [if_pos hfm]
      rcases hlm : impl.log_metrics state ts.progress.num_steps_completed
          Interval.step with e | v
      · try rw [hlm]
        try dsimp only
        simp [hfm]
      · try rw [hlm]
        try dsimp only
        simp [hfm]
    · rw [if_neg hfm]
      try dsimp only
      by_cases hc : u.lr_scheduler.isSome = true ∧ u.step_lr_interval = Interval.step
      · rw [if_pos hc]
        simp [hfm]
      · rw [if_neg hc]
        simp [hfm]
  · intro Batch Tensor Output fw impl u state ts hsched hts
    unfold on_train_epoch_end
    rcases hs : u.lr_scheduler with _ | sch
    · try rw [hs]
      try dsimp only
      unfold on_train_epoch_end_tail
      simp only [hts]
      rcases hlm : impl.log_metrics state ts.progress.num_steps_completed
          Interval.epoch with e | v
      · try rw [hlm]
        try dsimp only
        simp
      · try rw [hlm]
        try dsimp only
        simp
    · try rw [hs]
      try dsimp only
      by_cases hi : u.step_lr_interval = Interval.epoch
      · rw [if_pos hi]
        rw [hsched sch hs]
        try dsimp only
        unfold on_train_epoch_end_tail
        simp only [hts]
        rcases hlm : impl.log_metrics state ts.progress.num_steps_completed
            Interval.epoch with e | v
        · try rw [hlm]
          try dsimp only
          simp
        · try rw [hlm]
          try dsimp only
          simp
      · rw [if_neg hi]
        unfold on_train_epoch_end_tail
        simp only [hts]
        rcases hlm : impl.log_metrics state ts.progress.num_steps_completed
            Interval.epoch with e | v
        · try rw [hlm]
          try dsimp only
          simp
        · try rw [hlm]
          try dsimp only
          simp

/-- C3 witness: sample unit with `log_frequency_steps = 2` and 3 completed
steps, so `(3 + 1) % 2 = 0` and the step-interval logging fires; the epoch
logging fires even on a unit whose `log_frequency_steps` is `0`. -/
theorem C3_log_frequency_steps_witness :
    (Event.log_metrics 3 Interval.step ∈
        (train_step okFramework okImpl sampleUnit sampleState 5).trace ↔
      ((3 : Int) + 1).fmod 2 = 0) ∧
    Event.log_metrics 3 Interval.epoch ∈
      (on_train_epoch_end okFramework okImpl zeroFreqUnit sampleState).trace :=
  ⟨C3_log_frequency_steps.1 Nat Nat Nat okFramework okImpl sampleUnit sampleState 5
      105 105 106 ⟨⟨3⟩⟩ rfl rfl rfl rfl rfl (fun _ _ => rfl) rfl rfl (by decide),
   C3_log_frequency_steps.2 Nat Nat Nat okFramework okImpl zeroFreqUnit sampleState
      ⟨⟨3⟩⟩ (fun _ h => Option.noConfusion h) rfl⟩

/-- C6: the batch is copied to the unit's device before any computation —
the copy is the first call of `train_step`, and the copied batch (not the
original argument) is the one passed to `compute_loss` and to
`update_metrics`; and a unit constructed with the default `device` argument
(`None`) gets the device obtained from the environment. -/
theorem C6_device_placement_first {Batch Tensor Output : Type}
    (fw : Framework Batch Tensor) (impl : UnitImpl Batch Tensor Output)
    (u : AutoTrainUnit) (state : State) (data : Batch) (d : Batch)
    (loss : Tensor) (outputs : Output)
    (hcopy : fw.copy_data_to_device data u.device = Except.ok d)
    (hloss : impl.compute_loss state d = Except.ok (loss, outputs))
    (hback : fw.backward loss = Except.ok ())
    (hopt : fw.optimizer_step u.optimizer = Except.ok ())
    (hzero : fw.optimizer_zero_grad u.optimizer true = Except.ok ())
    (hsched : ∀ sch, u.lr_scheduler = some sch →
      fw.lr_scheduler_step sch = Except.ok ()) :
    (train_step fw impl u state data).trace.head? =
      some (Event.copy_data_to_device data u.device) ∧
    Event.compute_loss d ∈ (train_step fw impl u state data).trace ∧
    (∀ b, Event.compute_loss b ∈ (train_step fw impl u state data).trace → b = d) ∧
    Event.update_metrics d ∈ (train_step fw impl u state data).trace ∧
    (∀ b, Event.update_metrics b ∈ (train_step fw impl u state data).trace → b = d) ∧
    (∀ (o : OptimizerRef) (ls : Option SchedulerRef) (i : Interval) (lfs : Int)
      (env : Device),
      (AutoTrainUnit.init o ls i default_device lfs env).device = env) := by
  rw [train_step_reaches_tail fw impl u state data d loss outputs hcopy hloss hback
    hopt hzero hsched]
  obtain ⟨s, hsplit, hall, hmem⟩ := train_step_tail_trace_split impl u state d loss
    outputs ([Event.copy_data_to_device data u.device, Event.compute_loss d,
      Event.backward, Event.optimizer_step, Event.optimizer_zero_grad true] ++
     (if u.lr_scheduler.isSome ∧ u.step_lr_interval = Interval.step
      then [Event.lr_scheduler_step] else []))
  rw [hsplit]
  refine ⟨?_, ?_, ?_, ?_, ?_, fun o ls i lfs env => rfl⟩
  · simp
  · simp
  · intro b hb
    rw [List.mem_append] at hb
    rcases hb with hb | hb
    · rw [List.mem_append] at hb
      rcases hb with hb | hb
      · simp at hb
        exact hb
      · split at hb <;> simp at hb
    · rcases hall _ hb with h | ⟨n, h⟩ <;> simp at h
  · exact List.mem_append.mpr (Or.inr hmem)
  · intro b hb
    rw [List.mem_append] at hb
    rcases hb with hb | hb
    · rw [List.mem_append] at hb
      rcases hb with hb | hb
      · simp at hb
      · split at hb <;> simp at hb
    · rcases hall _ hb with h | ⟨n, h⟩
      · injection h
      · simp at h

/-- C6 witness: a run where the copy changes the batch from 5 to 105; 105 is
the batch passed on, and the copy is the first call. -/
theorem C6_device_placement_first_witness :
    (train_step okFramework okImpl sampleUnit sampleState 5).trace.head? =
      some (Event.copy_data_to_device 5 ⟨2⟩) ∧
    Event.update_metrics 105 ∈
      (train_step okFramework okImpl sampleUnit sampleState 5).trace :=
  ⟨(C6_device_placement_first okFramework okImpl sampleUnit sampleState 5 105 105 106
      rfl rfl rfl rfl rfl (fun _ _ => rfl)).1,
   (C6_device_placement_first okFramework okImpl sampleUnit sampleState 5 105 105 106
      rfl rfl rfl rfl rfl (fun _ _ => rfl)).2.2.2.1⟩

theorem train_step_result_of_success {Batch Tensor Output : Type}
    (fw : Framework Batch Tensor) (impl : UnitImpl Batch Tensor Output)
    (u : AutoTrainUnit) (state : State) (data : Batch) (d : Batch)
    (loss : Tensor) (outputs : Output) (ts : TrainState)
    (hcopy : fw.copy_data_to_device data u.device = Except.ok d)
    (hloss : impl.compute_loss state d = Except.ok (loss, outputs))
    (hback : fw.backward loss = Except.ok ())
    (hopt : fw.optimizer_step u.optimizer = Except.ok ())
    (hzero : fw.optimizer_zero_grad u.optimizer true = Except.ok ())
    (hsched : ∀ sch, u.lr_scheduler = some sch →
      fw.lr_scheduler_step sch = Except.ok ())
    (hupd : impl.update_metrics state d loss outputs = Except.ok ())
    (hts : state.train_state = some ts)
    (hlfs : u.log_frequency_steps ≠ 0)
    (hlog : impl.log_metrics state ts.progress.num_steps_completed Interval.step =
      Except.ok ()) :
    (train_step fw impl u state data).result = Except.ok (loss, outputs) := by
  rw [train_step_reaches_tail fw impl u state data d loss outputs hcopy hloss hback
    hopt hzero hsched]
  unfold train_step_tail
  simp only [hupd, hts]
  rw [if_neg hlfs]
  by_cases hfm : ((ts.progress.num_steps_completed : Int) + 1).fmod
      u.log_frequency_steps = 0
  · rw [if_pos hfm]
    simp only [hlog]
  · rw [if_neg hfm]

/-- C8: `train_step` returns exactly the pair `compute_loss` returned for the
device-copied batch.  A fully successful step returns that pair unchanged by
the backward pass, optimizer step, scheduler step and metric hooks run in
between; and every normally terminating step returns precisely a pair that
`compute_loss` produced for the copied batch. -/
theorem C8_returns_compute_loss_pair :
    (∀ (Batch Tensor Output : Type) (fw : Framework Batch Tensor)
      (impl : UnitImpl Batch Tensor Output) (u : AutoTrainUnit) (state : State)
      (data d : Batch) (loss : Tensor) (outputs : Output) (ts : TrainState),
      fw.copy_data_to_device data u.device = Except.ok d →
      impl.compute_loss state d = Except.ok (loss, outputs) →
      fw.backward loss = Except.ok () →
      fw.optimizer_step u.optimizer = Except.ok () →
      fw.optimizer_zero_grad u.optimizer true = Except.ok () →
      (∀ sch, u.lr_scheduler = some sch →
        fw.lr_scheduler_step sch = Except.ok ()) →
      impl.update_metrics state d loss outputs = Except.ok () →
      state.train_state = some ts →
      u.log_frequency_steps ≠ 0 →
      impl.log_metrics state ts.progress.num_steps_completed Interval.step =
        Except.ok () →
      (train_step fw impl u state data).result = Except.ok (loss, outputs)) ∧
    (∀ (Batch Tensor Output : Type) (fw : Framework Batch Tensor)
      (impl : UnitImpl Batch Tensor Output) (u : AutoTrainUnit) (state : State)
      (data : Batch) (p : Tensor × Output),
      (train_step fw impl u state data).result = Except.ok p →
      ∃ d, fw.copy_data_to_device data u.device = Except.ok d ∧
        impl.compute_loss state d = Except.ok p) := by
  constructor
  · intro Batch Tensor Output fw impl u state data d loss outputs ts hcopy hloss
      hback hopt hzero hsched hupd hts hlfs hlog
    exact train_step_result_of_success fw impl u state data d loss outputs ts hcopy
      hloss hback hopt hzero hsched hupd hts hlfs hlog
  · intro Batch Tensor Output fw impl u state data p h
    obtain ⟨d, hc, hl, _, _⟩ := train_step_ok_inv h
    exact ⟨d, hc, hl⟩

/-- C8 witness: a concrete fully successful step; the copy turns 5 into 105,
`compute_loss` yields `(105, 106)` and `train_step` returns it. -/
theorem C8_returns_compute_loss_pair_witness :
    (train_step okFramework okImpl sampleUnit sampleState 5).result =
      Except.ok (105, 106) :=
  C8_returns_compute_loss_pair.1 Nat Nat Nat okFramework okImpl sampleUnit
    sampleState 5 105 105 106 ⟨⟨3⟩⟩ rfl rfl rfl rfl rfl (fun _ _ => rfl) rfl rfl
    (by decide) rfl

/-- C9: with `log_frequency_steps = 0` every `train_step` that reaches the
logging check raises `ZeroDivisionError`, whatever the batch and step count;
and `train_step` terminates normally only when `log_frequency_steps` is
nonzero and `state.train_state` is set. -/
theorem C9_zero_log_frequency_steps :
    (∀ (Batch Tensor Output : Type) (fw : Framework Batch Tensor)
      (impl : UnitImpl Batch Tensor Output) (u : AutoTrainUnit) (state : State)
      (data d : Batch) (loss : Tensor) (outputs : Output) (ts : TrainState),
      fw.copy_data_to_device data u.device = Except.ok d →
      impl.compute_loss state d = Except.ok (loss, outputs) →
      fw.backward loss = Except.ok () →
      fw.optimizer_step u.optimizer = Except.ok () →
      fw.optimizer_zero_grad u.optimizer true = Except.ok () →
      (∀ sch, u.lr_scheduler = some sch →
        fw.lr_scheduler_step sch = Except.ok ()) →
      impl.update_metrics state d loss outputs = Except.ok () →
      state.train_state = some ts →
      u.log_frequency_steps = 0 →
      (train_step fw impl u state data).result = Except.error PyErr.divByZero) ∧
    (∀ (Batch Tensor Output : Type) (fw : Framework Batch Tensor)
      (impl : UnitImpl Batch Tensor Output) (u : AutoTrainUnit) (state : State)
      (data : Batch) (p : Tensor × Output),
      (train_step fw impl u state data).result = Except.ok p →
      u.log_frequency_steps ≠ 0 ∧ state.train_state.isSome = true) := by
  constructor
  · intro Batch Tensor Output fw impl u state data d loss outputs ts hcopy hloss
      hback hopt hzero hsched hupd hts hlfs0
    rw [train_step_reaches_tail fw impl u state data d loss outputs hcopy hloss
      hback hopt hzero hsched]
    unfold train_step_tail
    simp only [hupd, hts]
    rw [if_pos hlfs0]
  · intro Batch Tensor Output fw impl u state data p h
    obtain ⟨d, _, _, hsome, hlfs⟩ := train_step_ok_inv h
    exact ⟨hlfs, hsome⟩

/-- C9 witness: a unit with `log_frequency_steps = 0` raises
`ZeroDivisionError` at a concrete input; the sample run terminating normally
has a nonzero frequency and a set `train_state`. -/
theorem C9_zero_log_frequency_steps_witness :
    (train_step okFramework okImpl zeroFreqUnit sampleState 5).result =
        Except.error PyErr.divByZero ∧
      (sampleUnit.log_frequency_steps ≠ 0 ∧
        sampleState.train_state.isSome = true) :=
  ⟨C9_zero_log_frequency_steps.1 Nat Nat Nat okFramework okImpl zeroFreqUnit
      sampleState 5 105 105 106 ⟨⟨3⟩⟩ rfl rfl rfl rfl rfl
      (fun _ h => Option.noConfusion h) rfl rfl rfl,
   C9_zero_log_frequency_steps.2 Nat Nat Nat okFramework okImpl sampleUnit
      sampleState 5 (105, 106) rfl⟩

/-- C7: only the loss-computation callback must be supplied.  The inherited
`update_metrics` and `log_metrics` bodies return `()` and raise nothing for
every input, and a subclass built from `compute_loss` alone runs a full
`train_step` to normal completion. -/
theorem C7_compute_loss_sole_override :
    (∀ (Batch Tensor Output : Type) (state : State) (b : Batch) (loss : Tensor)
      (out : Output),
      default_update_metrics state b loss out = (Except.ok () : Except Nat Unit)) ∧
    (∀ (state : State) (n : Nat) (i : Interval),
      default_log_metrics state n i = Except.ok ()) ∧
    (∀ (Batch Tensor Output : Type) (fw : Framework Batch Tensor)
      (u : AutoTrainUnit) (state : State) (data d : Batch) (loss : Tensor)
      (outputs : Output) (ts : TrainState)
      (f : State → Batch → Except Nat (Tensor × Output)),
      fw.copy_data_to_device data u.device = Except.ok d →
      f state d = Except.ok (loss, outputs) →
      fw.backward loss = Except.ok () →
      fw.optimizer_step u.optimizer = Except.ok () →
      fw.optimizer_zero_grad u.optimizer true = Except.ok () →
      (∀ sch, u.lr_scheduler = some sch →
        fw.lr_scheduler_step sch = Except.ok ()) →
      state.train_state = some ts →
      u.log_frequency_steps ≠ 0 →
      (train_step fw (UnitImpl.ofComputeLoss f) u state data).result =
        Except.ok (loss, outputs)) := by
  refine ⟨fun _ _ _ _ _ _ _ => rfl, fun _ _ _ => rfl, ?_⟩
  intro Batch Tensor Output fw u state data d loss outputs ts f hcopy hf hback hopt
    hzero hsched hts hlfs
  exact train_step_result_of_success fw (UnitImpl.ofComputeLoss f) u state data d
    loss outputs ts hcopy hf hback hopt hzero hsched rfl hts hlfs rfl

/-- C7 witness: a subclass supplying only a loss computation completes a
concrete `train_step` normally. -/
theorem C7_compute_loss_sole_override_witness :
    (train_step okFramework
        (UnitImpl.ofComputeLoss (fun _ b => Except.ok (b, b + 1)))
        sampleUnit sampleState 5).result = Except.ok (105, 106) :=
  C7_compute_loss_sole_override.2.2 Nat Nat Nat okFramework sampleUnit sampleState
    5 105 105 106 ⟨⟨3⟩⟩ (fun _ b => Except.ok (b, b + 1)) rfl rfl rfl rfl rfl
    (fun _ _ => rfl) rfl (by decide)

/-- C5 counterexample: with every framework call and user override succeeding
but `state.train_state` equal to Python `None`, `train_step` raises the
`AssertionError` of this class's own `assert state.train_state` statement —
an error produced by a check of the class itself, not by the external
framework or an override, refuting the claim that no error ever originates
from a check performed by this class. -/
theorem C5_assert_error_from_class_itself :
    (train_step okFramework okImpl sampleUnit noTrainState 5).result =
      Except.error PyErr.assertFailed := rfl

/-- C5 amended: every error raised during `train_step` or
`on_train_epoch_end` either propagates from the external framework or a
user-supplied override, or is one of the two errors the class raises itself:
the `AssertionError` of `assert state.train_state` (only when `train_state`
is `None`) and, in `train_step` only, the `ZeroDivisionError` of the modulo
(only when `log_frequency_steps` is `0`). -/
theorem C5_error_provenance :
    (∀ (Batch Tensor Output : Type) (fw : Framework Batch Tensor)
      (impl : UnitImpl Batch Tensor Output) (u : AutoTrainUnit) (state : State)
      (data : Batch) (err : PyErr),
      (train_step fw impl u state data).result = Except.error err →
      (∃ c, err = PyErr.fromFramework c) ∨
        (err = PyErr.assertFailed ∧ state.train_state = none) ∨
        (err = PyErr.divByZero ∧ u.log_frequency_steps = 0)) ∧
    (∀ (Batch Tensor Output : Type) (fw : Framework Batch Tensor)
      (impl : UnitImpl Batch Tensor Output) (u : AutoTrainUnit) (state : State)
      (err : PyErr),
      (on_train_epoch_end fw impl u state).result = Except.error err →
      (∃ c, err = PyErr.fromFramework c) ∨
        (err = PyErr.assertFailed ∧ state.train_state = none)) := by
  constructor
  · intro Batch Tensor Output fw impl u state data err h
    exact train_step_err_inv h
  · intro Batch Tensor Output fw impl u state err h
    exact on_train_epoch_end_err_inv h

/-- C5 amended witness: the error of the `train_state = None` run is accounted
for by the assert clause of the amended statement. -/
theorem C5_error_provenance_witness :
    (∃ c, PyErr.assertFailed = PyErr.fromFramework c) ∨
      (PyErr.assertFailed = PyErr.assertFailed ∧ noTrainState.train_state = none) ∨
      (PyErr.assertFailed = PyErr.divByZero ∧ sampleUnit.log_frequency_steps = 0) :=
  C5_error_provenance.1 Nat Nat Nat okFramework okImpl sampleUnit noTrainState 5
    PyErr.assertFailed rfl

end TorchTNT
